import Mathlib

/-!
Verification development for the university dashboard in
`src/frontend/App.tsx`.

The source is TypeScript running on JavaScript numbers (IEEE doubles).
We shallow-embed the numeric values as `JsNum`: a rational (`finite`
arithmetic is exact in the source's reachable range) together with the
three non-finite values `posInf`, `negInf` and `nan` produced by
division by zero.  The arithmetic, comparison and `toFixed` formatting
operations below follow the JavaScript semantics for these values.
-/

/-- A JavaScript number: a finite value (modelled exactly as a rational)
or one of the non-finite values `Infinity`, `-Infinity`, `NaN`. -/
inductive JsNum where
  | num : ℚ → JsNum
  | posInf : JsNum
  | negInf : JsNum
  | nan : JsNum
  deriving DecidableEq, Repr

/-- Comparison of rationals on their normalised representations
(kernel-computable): `a < b` iff `a.num * b.den < b.num * a.den`. -/
def ratLtb (a b : ℚ) : Bool := decide (a.num * (b.den : ℤ) < b.num * (a.den : ℤ))

/-- Zero test on the normalised representation. -/
def ratIsZero (q : ℚ) : Bool := decide (q.num = 0)

/-- Negativity test on the normalised representation. -/
def ratIsNeg (q : ℚ) : Bool := decide (q.num < 0)

/-- Kernel-computable rational addition (`Rat.add` itself is marked
irreducible upstream); proved equal to `a + b` below. -/
def ratAdd (a b : ℚ) : ℚ :=
  Rat.divInt (a.num * (b.den : ℤ) + b.num * (a.den : ℤ)) ((a.den : ℤ) * (b.den : ℤ))

/-- Kernel-computable rational multiplication; proved equal to `a * b`
below. -/
def ratMul (a b : ℚ) : ℚ := Rat.divInt (a.num * b.num) ((a.den : ℤ) * (b.den : ℤ))

/-- Kernel-computable rational division; proved equal to `a / b` for
`b ≠ 0` below (the zero-denominator case never reaches it). -/
def ratDiv (a b : ℚ) : ℚ := Rat.divInt (a.num * (b.den : ℤ)) (b.num * (a.den : ℤ))

namespace JsNum

/-- JavaScript addition (`a + b`). -/
def add : JsNum → JsNum → JsNum
  | nan, _ => nan
  | _, nan => nan
  | posInf, negInf => nan
  | negInf, posInf => nan
  | posInf, _ => posInf
  | _, posInf => posInf
  | negInf, _ => negInf
  | _, negInf => negInf
  | num a, num b => num (ratAdd a b)

/-- JavaScript multiplication (`a * b`). -/
def mul : JsNum → JsNum → JsNum
  | nan, _ => nan
  | _, nan => nan
  | posInf, posInf => posInf
  | posInf, negInf => negInf
  | negInf, posInf => negInf
  | negInf, negInf => posInf
  | posInf, num b => if ratIsZero b then nan else if ratIsNeg b then negInf else posInf
  | num a, posInf => if ratIsZero a then nan else if ratIsNeg a then negInf else posInf
  | negInf, num b => if ratIsZero b then nan else if ratIsNeg b then posInf else negInf
  | num a, negInf => if ratIsZero a then nan else if ratIsNeg a then posInf else negInf
  | num a, num b => num (ratMul a b)

/-- JavaScript division (`a / b`); division by zero yields the
non-finite values (we identify `+0` and `-0`, taking zero as `+0`). -/
def div : JsNum → JsNum → JsNum
  | nan, _ => nan
  | _, nan => nan
  | posInf, posInf => nan
  | posInf, negInf => nan
  | negInf, posInf => nan
  | negInf, negInf => nan
  | posInf, num b => if ratIsNeg b then negInf else posInf
  | negInf, num b => if ratIsNeg b then posInf else negInf
  | num _, posInf => num 0
  | num _, negInf => num 0
  | num a, num b =>
      if ratIsZero b then
        (if ratIsNeg a then negInf else if ratIsZero a then nan else posInf)
      else num (ratDiv a b)

/-- JavaScript strict less-than (`a < b`); any comparison with `NaN`
is false. -/
def ltb : JsNum → JsNum → Bool
  | nan, _ => false
  | _, nan => false
  | negInf, negInf => false
  | negInf, _ => true
  | _, negInf => false
  | posInf, _ => false
  | num _, posInf => true
  | num a, num b => ratLtb a b

/-- JavaScript strict greater-than (`a > b`). -/
def gtb (a b : JsNum) : Bool := ltb b a

/-- Is the value finite (neither infinite nor `NaN`)? -/
def isFinite : JsNum → Bool
  | num _ => true
  | _ => false

/-- Left-pad a decimal digit string with zeros to width `d`. -/
def padZeros (s : String) (d : Nat) : String :=
  String.mk (List.replicate (d - s.length) '0') ++ s

/-- `toFixed` on a non-negative rational: round half away from zero at
`d` decimal digits and print with exactly `d` fractional digits.  The
rounded scaled integer `⌊q * 10 ^ d + 1 / 2⌋` is computed directly on
the normalised representation in natural-number arithmetic. -/
def toFixedPos (q : ℚ) (d : Nat) : String :=
  let n : Nat := (2 * q.num.toNat * 10 ^ d + q.den) / (2 * q.den)
  if d = 0 then toString n
  else toString (n / 10 ^ d) ++ "." ++ padZeros (toString (n % 10 ^ d)) d

/-- JavaScript `Number.prototype.toFixed`: sign-magnitude, ties round
away from zero; `NaN` and the infinities print their names. -/
def toFixed : JsNum → Nat → String
  | nan, _ => "NaN"
  | posInf, _ => "Infinity"
  | negInf, _ => "-Infinity"
  | num q, d => if ratIsNeg q then "-" ++ toFixedPos (-q) d else toFixedPos q d

end JsNum

set_option linter.dupNamespace false in
/-- One department row (the `Department` interface of `App.tsx`): the
four base fields plus the two optional derived fields
`'Student-Faculty Ratio'` and `'Budget per Student'`. -/
structure Department where
  Department : String
  Students : JsNum
  Faculty : JsNum
  Budget : JsNum
  studentFacultyRatio : Option JsNum := none
  budgetPerStudent : Option JsNum := none
  deriving DecidableEq, Repr

/-- The value of an optional field as JavaScript sees it in a numeric
context: an absent field reads as `undefined`, which coerces to `NaN`. -/
def optNum (o : Option JsNum) : JsNum := o.getD JsNum.nan

/-- The four original (base) fields of a record. -/
def baseOf (d : Department) : String × JsNum × JsNum × JsNum :=
  (d.Department, d.Students, d.Faculty, d.Budget)

/-- `analyzeDepartmentData` of `App.tsx`: spread each record and set the
two derived fields from the base fields. -/
def analyzeDepartmentData (departments : List Department) : List Department :=
  departments.map fun dept =>
    { dept with
      studentFacultyRatio := some (JsNum.div dept.Students dept.Faculty)
      budgetPerStudent := some (JsNum.div dept.Budget dept.Students) }

/-- The high-ratio warning string pushed by `generateRecommendations`. -/
def highRatioMsg (dept : Department) : String :=
  "🚨 High student-faculty ratio in " ++ dept.Department ++ " (" ++
    JsNum.toFixed (optNum dept.studentFacultyRatio) 1 ++
    ":1). Consider hiring more faculty."

/-- The low-budget warning string pushed by `generateRecommendations`. -/
def lowBudgetMsg (dept : Department) : String :=
  "💰 Low budget per student in " ++ dept.Department ++ " ($" ++
    JsNum.toFixed (optNum dept.budgetPerStudent) 2 ++
    "). Consider budget increase."

/-- The dataset-wide average the low-budget rule compares against:
`departments.reduce((acc, d) => acc + d.Budget / d.Students, 0) /
departments.length` (recomputed inside the loop in the source). -/
def avgBudgetPerStudent (departments : List Department) : JsNum :=
  JsNum.div
    (departments.foldl (fun acc d => JsNum.add acc (JsNum.div d.Budget d.Students))
      (JsNum.num 0))
    (JsNum.num departments.length)

/-- `generateRecommendations` of `App.tsx`: a `forEach` pushing, per
record, first the high-ratio message when `ratio > 30`, then the
low-budget message when `budgetPerStudent < avg * 0.8`, the average
being recomputed from all records on every iteration. -/
def generateRecommendations (departments : List Department) : List String :=
  departments.foldl
    (fun recommendations dept =>
      let recs1 :=
        if JsNum.gtb (optNum dept.studentFacultyRatio) (JsNum.num 30)
        then recommendations ++ [highRatioMsg dept] else recommendations
      if JsNum.ltb (optNum dept.budgetPerStudent)
          (JsNum.mul (avgBudgetPerStudent departments) (JsNum.num (mkRat 4 5)))
      then recs1 ++ [lowBudgetMsg dept] else recs1)
    []

/-- A variant of `generateRecommendations` that hoists the dataset-wide
average out of the loop, computing it once per call (the refinement the
spec proposes for reimplementers). -/
def generateRecommendationsHoisted (departments : List Department) : List String :=
  let avg := avgBudgetPerStudent departments
  departments.foldl
    (fun recommendations dept =>
      let recs1 :=
        if JsNum.gtb (optNum dept.studentFacultyRatio) (JsNum.num 30)
        then recommendations ++ [highRatioMsg dept] else recommendations
      if JsNum.ltb (optNum dept.budgetPerStudent)
          (JsNum.mul avg (JsNum.num (mkRat 4 5)))
      then recs1 ++ [lowBudgetMsg dept] else recs1)
    []

/-- The per-record contribution of `generateRecommendations`: zero, one
or two messages, high-ratio first. -/
def recsForDept (departments : List Department) (dept : Department) : List String :=
  (if JsNum.gtb (optNum dept.studentFacultyRatio) (JsNum.num 30)
   then [highRatioMsg dept] else []) ++
  (if JsNum.ltb (optNum dept.budgetPerStudent)
      (JsNum.mul (avgBudgetPerStudent departments) (JsNum.num (mkRat 4 5)))
   then [lowBudgetMsg dept] else [])

/-- The 8 fixed sample departments of `loadSampleData`. -/
def sampleData : List Department :=
  [ ⟨"Computer Science", JsNum.num 450, JsNum.num 12, JsNum.num 2000000, none, none⟩,
    ⟨"Mathematics", JsNum.num 300, JsNum.num 10, JsNum.num 1500000, none, none⟩,
    ⟨"Physics", JsNum.num 200, JsNum.num 8, JsNum.num 1800000, none, none⟩,
    ⟨"Chemistry", JsNum.num 250, JsNum.num 9, JsNum.num 1700000, none, none⟩,
    ⟨"Biology", JsNum.num 350, JsNum.num 11, JsNum.num 1900000, none, none⟩,
    ⟨"Engineering", JsNum.num 500, JsNum.num 15, JsNum.num 2500000, none, none⟩,
    ⟨"Psychology", JsNum.num 400, JsNum.num 10, JsNum.num 1600000, none, none⟩,
    ⟨"Economics", JsNum.num 350, JsNum.num 9, JsNum.num 1400000, none, none⟩ ]

/-!
Model of the Insight Requestor (`getAiInsights`).  Its observable
outcome — the string stored by `setAiInsight` — is a function of how the
single `fetch` turns out.  The source never reads `response.ok` or
`response.status`; after `response.json()` it evaluates
`result.choices[0].message.content`, and any exception thrown on the
way (network rejection, non-JSON body, or a property access on
`null`/`undefined`) is caught and replaced by the fixed fallback text.
-/

/-- A JavaScript value as obtained from `response.json()` (a JSON
value), extended with `undefined`, which property access produces. -/
inductive JsVal where
  | undef : JsVal
  | jnull : JsVal
  | jbool : Bool → JsVal
  | jnum : ℚ → JsVal
  | jstr : String → JsVal
  | jarr : List JsVal → JsVal
  | jobj : List (String × JsVal) → JsVal

/-- JavaScript property access `v[key]` for the non-numeric keys the
source uses (`choices`, `message`, `content`): throws (`error`) on
`null`/`undefined`, yields `undefined` on primitives and arrays, and
looks the key up on objects. -/
def getProp : JsVal → String → Except Unit JsVal
  | .undef, _ => .error ()
  | .jnull, _ => .error ()
  | .jbool _, _ => .ok .undef
  | .jnum _, _ => .ok .undef
  | .jstr _, _ => .ok .undef
  | .jarr _, _ => .ok .undef
  | .jobj fields, key => .ok ((fields.lookup key).getD .undef)

/-- JavaScript index access `v[0]`: throws on `null`/`undefined`,
yields the first element of an array (or `undefined` when empty), the
first character of a string, `undefined` otherwise. -/
def getIndex0 : JsVal → Except Unit JsVal
  | .undef => .error ()
  | .jnull => .error ()
  | .jbool _ => .ok .undef
  | .jnum _ => .ok .undef
  | .jstr s =>
      .ok (match s.data with
           | [] => .undef
           | c :: _ => .jstr (String.mk [c]))
  | .jarr xs => .ok (xs.getD 0 .undef)
  | .jobj fields => .ok ((fields.lookup "0").getD .undef)

/-- The evaluation of `result.choices[0].message.content`; `error`
means a `TypeError` was thrown along the chain. -/
def extractContent (result : JsVal) : Except Unit JsVal := do
  let choices ← getProp result "choices"
  let c0 ← getIndex0 choices
  let msg ← getProp c0 "message"
  getProp msg "content"

/-- How the body of the `fetch` response turned out:
`response.json()` rejected, or parsed to a JSON value. -/
inductive BodyOutcome where
  | notJson : BodyOutcome
  | json : JsVal → BodyOutcome

/-- How the `fetch` itself turned out: the promise rejected (network
error), or a response arrived with some HTTP status and body. -/
inductive FetchOutcome where
  | networkError : FetchOutcome
  | response : Nat → BodyOutcome → FetchOutcome

/-- The fixed fallback message of the `catch` branch. -/
def fallbackMsg : String := "Error getting AI insights. Please try again later."

/-- The value `getAiInsights` stores into the insight state, as a
function of the fetch outcome.  The HTTP status is ignored — the source
never consults it; every thrown error is caught and mapped to
`fallbackMsg`, so the function is total (nothing is raised past the
boundary). -/
def getAiInsights : FetchOutcome → JsVal
  | .networkError => .jstr fallbackMsg
  | .response _ .notJson => .jstr fallbackMsg
  | .response _ (.json v) =>
      match extractContent v with
      | .error _ => .jstr fallbackMsg
      | .ok c => c

/-!  Bridge lemmas: the kernel-computable rational operations used in
the embedding agree with the Mathlib field operations on `ℚ`. -/

theorem ratAdd_eq (a b : ℚ) : ratAdd a b = a + b := by
  have ha : ((a.den : ℚ)) ≠ 0 := by exact_mod_cast a.den_ne_zero
  have hb : ((b.den : ℚ)) ≠ 0 := by exact_mod_cast b.den_ne_zero
  conv_rhs => rw [← Rat.num_div_den a, ← Rat.num_div_den b]
  rw [ratAdd, Rat.divInt_eq_div]
  push_cast
  field_simp

theorem ratMul_eq (a b : ℚ) : ratMul a b = a * b := by
  have ha : ((a.den : ℚ)) ≠ 0 := by exact_mod_cast a.den_ne_zero
  have hb : ((b.den : ℚ)) ≠ 0 := by exact_mod_cast b.den_ne_zero
  conv_rhs => rw [← Rat.num_div_den a, ← Rat.num_div_den b]
  rw [ratMul, Rat.divInt_eq_div]
  push_cast
  field_simp

theorem ratDiv_eq (a b : ℚ) (hb : b ≠ 0) : ratDiv a b = a / b := by
  have ha : ((a.den : ℚ)) ≠ 0 := by exact_mod_cast a.den_ne_zero
  have hbd : ((b.den : ℚ)) ≠ 0 := by exact_mod_cast b.den_ne_zero
  have hbn : ((b.num : ℚ)) ≠ 0 := by
    exact_mod_cast Rat.num_ne_zero.mpr hb
  conv_rhs => rw [← Rat.num_div_den a, ← Rat.num_div_den b]
  rw [ratDiv, Rat.divInt_eq_div]
  push_cast
  rw [div_div_div_comm]
  field_simp

theorem ratLtb_iff (a b : ℚ) : ratLtb a b = true ↔ a < b := by
  have ha : (0 : ℚ) < (a.den : ℚ) := by exact_mod_cast a.pos
  have hb : (0 : ℚ) < (b.den : ℚ) := by exact_mod_cast b.pos
  rw [ratLtb, decide_eq_true_eq]
  constructor
  · intro h
    rw [← Rat.num_div_den a, ← Rat.num_div_den b, div_lt_div_iff₀ ha hb]
    exact_mod_cast h
  · intro h
    rw [← Rat.num_div_den a, ← Rat.num_div_den b, div_lt_div_iff₀ ha hb] at h
    exact_mod_cast h

/-- Division of two finite nonzero-denominator values is the exact
rational quotient. -/
theorem jsDiv_num (a b : ℚ) (hb : b ≠ 0) :
    JsNum.div (JsNum.num a) (JsNum.num b) = JsNum.num (a / b) := by
  have hb' : ¬ b.num = 0 := Rat.num_ne_zero.mpr hb
  simp [JsNum.div, ratIsZero, hb', ratDiv_eq a b hb]


/-!  Structural helpers for the recommendation loop. -/

/-- A left fold that only appends to its accumulator flattens to a
`flatMap`. -/
theorem foldl_append_flatMap {α β : Type} (f : List β → α → List β)
    (g : α → List β) (h : ∀ acc x, f acc x = acc ++ g x) :
    ∀ (l : List α) (acc : List β), l.foldl f acc = acc ++ l.flatMap g := by
  intro l
  induction l with
  | nil => intro acc; simp
  | cons x xs ih =>
      intro acc
      rw [List.foldl_cons, h, ih, List.flatMap_cons, List.append_assoc]

/-- The recommendation loop, written as one flat map of the per-record
contribution: the output is in input order, each record contributing
its high-ratio message (if any) immediately followed by its low-budget
message (if any). -/
theorem generateRecommendations_eq_flatMap (departments : List Department) :
    generateRecommendations departments =
      departments.flatMap (recsForDept departments) := by
  have h : ∀ (acc : List String) (dept : Department),
      (fun recommendations dept =>
        let recs1 :=
          if JsNum.gtb (optNum dept.studentFacultyRatio) (JsNum.num 30)
          then recommendations ++ [highRatioMsg dept] else recommendations
        if JsNum.ltb (optNum dept.budgetPerStudent)
            (JsNum.mul (avgBudgetPerStudent departments) (JsNum.num (mkRat 4 5)))
        then recs1 ++ [lowBudgetMsg dept] else recs1) acc dept
      = acc ++ recsForDept departments dept := by
    intro acc dept
    by_cases h1 : JsNum.gtb (optNum dept.studentFacultyRatio) (JsNum.num 30) = true <;>
    by_cases h2 : JsNum.ltb (optNum dept.budgetPerStudent)
        (JsNum.mul (avgBudgetPerStudent departments) (JsNum.num (mkRat 4 5))) = true <;>
    simp [recsForDept, h1, h2]
  exact foldl_append_flatMap _ _ h departments []

/-- Summing `Budget / Students` over finite records with nonzero
student counts is the rational sum of the quotients. -/
theorem foldl_add_bps (bps : Department → ℚ) :
    ∀ (l : List Department),
      (∀ d ∈ l, JsNum.div d.Budget d.Students = JsNum.num (bps d)) →
      ∀ (a : ℚ),
        l.foldl (fun acc d => JsNum.add acc (JsNum.div d.Budget d.Students))
            (JsNum.num a) = JsNum.num (a + (l.map bps).sum) := by
  intro l
  induction l with
  | nil => intro _ a; simp
  | cons x xs ih =>
      intro h a
      rw [List.foldl_cons, h x (List.mem_cons_self x xs)]
      have hx : JsNum.add (JsNum.num a) (JsNum.num (bps x))
          = JsNum.num (a + bps x) := by
        simp [JsNum.add, ratAdd_eq]
      rw [hx, ih (fun d hd => h d (List.mem_cons_of_mem x hd)) (a + bps x)]
      rw [List.map_cons, List.sum_cons, add_assoc]

/-- On a non-empty dataset of finite records, the code's
`avgBudgetPerStudent` expression is the arithmetic mean of the
per-record `Budget / Students` quotients. -/
theorem avgBudgetPerStudent_eq_mean (l : List Department) (bps : Department → ℚ)
    (h : ∀ d ∈ l, JsNum.div d.Budget d.Students = JsNum.num (bps d))
    (hne : l ≠ []) :
    avgBudgetPerStudent l = JsNum.num ((l.map bps).sum / (l.length : ℚ)) := by
  have hlen : ((l.length : ℚ)) ≠ 0 := by
    have : l.length ≠ 0 := by
      simpa [List.length_eq_zero] using hne
    exact_mod_cast this
  rw [avgBudgetPerStudent, foldl_add_bps bps l h 0, zero_add,
    jsDiv_num _ _ hlen]

/-- Dividing any JavaScript number by finite zero never yields a finite
number: the result is `Infinity`, `-Infinity` or `NaN`. -/
theorem div_zero_not_finite (x : JsNum) :
    JsNum.isFinite (JsNum.div x (JsNum.num 0)) = false := by
  cases x with
  | num a =>
      show JsNum.isFinite
        (if ratIsZero 0 then
          (if ratIsNeg a then JsNum.negInf
           else if ratIsZero a then JsNum.nan else JsNum.posInf)
         else JsNum.num (ratDiv a 0)) = false
      have h0 : ratIsZero 0 = true := by decide
      rw [h0]
      simp only [if_true]
      by_cases h1 : ratIsNeg a = true <;> by_cases h2 : ratIsZero a = true <;>
        simp [h1, h2, JsNum.isFinite]
  | posInf =>
      show JsNum.isFinite (if ratIsNeg 0 then JsNum.negInf else JsNum.posInf) = false
      decide
  | negInf =>
      show JsNum.isFinite (if ratIsNeg 0 then JsNum.posInf else JsNum.negInf) = false
      decide
  | nan => rfl

/-!  Claim theorems. -/

/-- Claim C1: the Derivation Engine returns a sequence of identical
length and order, and every original field (name, studentCount,
facultyCount, budget) of each output record is unchanged from the
corresponding input record; only the two derived fields are added. -/
theorem analyzeDepartmentData_frame (ds : List Department) :
    (analyzeDepartmentData ds).length = ds.length ∧
    (analyzeDepartmentData ds).map baseOf = ds.map baseOf ∧
    ∀ d ∈ analyzeDepartmentData ds,
      d.studentFacultyRatio.isSome ∧ d.budgetPerStudent.isSome := by
  refine ⟨by simp [analyzeDepartmentData], ?_, ?_⟩
  · rw [analyzeDepartmentData, List.map_map]
    rfl
  · intro d hd
    rw [analyzeDepartmentData, List.mem_map] at hd
    obtain ⟨d0, -, rfl⟩ := hd
    exact ⟨rfl, rfl⟩

/-- Claim C1 witness: the frame property evaluated on the sample data,
including both derived fields being set on the first output record. -/
theorem analyzeDepartmentData_frame_witness :
    (analyzeDepartmentData sampleData).length = sampleData.length ∧
    (analyzeDepartmentData sampleData).map baseOf = sampleData.map baseOf ∧
    ((⟨"Computer Science", JsNum.num 450, JsNum.num 12, JsNum.num 2000000,
        some (JsNum.num (mkRat 75 2)), some (JsNum.num (mkRat 40000 9))⟩ :
      Department) ∈ analyzeDepartmentData sampleData ∧
     (Option.isSome (some (JsNum.num (mkRat 75 2))) ∧
      Option.isSome (some (JsNum.num (mkRat 40000 9))))) :=
  ⟨(analyzeDepartmentData_frame sampleData).1,
   (analyzeDepartmentData_frame sampleData).2.1,
   by decide,
   (analyzeDepartmentData_frame sampleData).2.2
     ⟨"Computer Science", JsNum.num 450, JsNum.num 12, JsNum.num 2000000,
       some (JsNum.num (mkRat 75 2)), some (JsNum.num (mkRat 40000 9))⟩
     (by decide)⟩

/-- Claim C2: the derived fields are the exact quotients
`studentCount / facultyCount` and `budget / studentCount`; the
Computer Science sample record `{Students:450, Faculty:12,
Budget:2000000}` derives ratio `37.5` (= 75/2) and budgetPerStudent
`4444.44...` (= 40000/9, shown as `4444.44` at two decimals), and the 8
sample departments derive a fixed, deterministic set of values. -/
theorem analyzeDepartmentData_exact_quotients :
    (∀ (d : Department) (s f b : ℚ),
      d.Students = JsNum.num s → d.Faculty = JsNum.num f → d.Budget = JsNum.num b →
      f ≠ 0 → s ≠ 0 →
      analyzeDepartmentData [d] =
        [{ d with studentFacultyRatio := some (JsNum.num (s / f)),
                  budgetPerStudent := some (JsNum.num (b / s)) }]) ∧
    (mkRat 75 2 : ℚ) = (450 : ℚ) / 12 ∧
    (mkRat 40000 9 : ℚ) = (2000000 : ℚ) / 450 ∧
    JsNum.toFixed (JsNum.num (mkRat 75 2)) 1 = "37.5" ∧
    JsNum.toFixed (JsNum.num (mkRat 40000 9)) 2 = "4444.44" ∧
    analyzeDepartmentData sampleData =
      [ ⟨"Computer Science", JsNum.num 450, JsNum.num 12, JsNum.num 2000000,
          some (JsNum.num (mkRat 75 2)), some (JsNum.num (mkRat 40000 9))⟩,
        ⟨"Mathematics", JsNum.num 300, JsNum.num 10, JsNum.num 1500000,
          some (JsNum.num 30), some (JsNum.num 5000)⟩,
        ⟨"Physics", JsNum.num 200, JsNum.num 8, JsNum.num 1800000,
          some (JsNum.num 25), some (JsNum.num 9000)⟩,
        ⟨"Chemistry", JsNum.num 250, JsNum.num 9, JsNum.num 1700000,
          some (JsNum.num (mkRat 250 9)), some (JsNum.num 6800)⟩,
        ⟨"Biology", JsNum.num 350, JsNum.num 11, JsNum.num 1900000,
          some (JsNum.num (mkRat 350 11)), some (JsNum.num (mkRat 38000 7))⟩,
        ⟨"Engineering", JsNum.num 500, JsNum.num 15, JsNum.num 2500000,
          some (JsNum.num (mkRat 100 3)), some (JsNum.num 5000)⟩,
        ⟨"Psychology", JsNum.num 400, JsNum.num 10, JsNum.num 1600000,
          some (JsNum.num 40), some (JsNum.num 4000)⟩,
        ⟨"Economics", JsNum.num 350, JsNum.num 9, JsNum.num 1400000,
          some (JsNum.num (mkRat 350 9)), some (JsNum.num 4000)⟩ ] := by
  refine ⟨?_, by norm_num [mkRat], by norm_num [mkRat], by decide, by decide, by decide⟩
  intro d s f b hs hf hb hfz hsz
  simp [analyzeDepartmentData, hs, hf, hb, jsDiv_num _ _ hfz, jsDiv_num _ _ hsz]

/-- Claim C2 witness: the general quotient law applied to the Computer
Science sample record. -/
theorem analyzeDepartmentData_exact_quotients_witness :
    ((12 : ℚ) ≠ 0) ∧ ((450 : ℚ) ≠ 0) ∧
    analyzeDepartmentData
        [⟨"Computer Science", JsNum.num 450, JsNum.num 12, JsNum.num 2000000, none, none⟩] =
      [⟨"Computer Science", JsNum.num 450, JsNum.num 12, JsNum.num 2000000,
        some (JsNum.num ((450 : ℚ) / 12)), some (JsNum.num ((2000000 : ℚ) / 450))⟩] :=
  ⟨by norm_num, by norm_num,
   analyzeDepartmentData_exact_quotients.1
     ⟨"Computer Science", JsNum.num 450, JsNum.num 12, JsNum.num 2000000, none, none⟩
     450 12 2000000 rfl rfl rfl (by norm_num) (by norm_num)⟩

/-- Claim C3: the high-ratio warning is emitted for a record exactly
when its `studentFacultyRatio` is strictly greater than 30 (the
comparison `gtb _ 30` holds iff `30 < ratio`); a ratio of exactly 30
yields no message, 30.1 does, and the message names the department and
shows the ratio at one decimal place. -/
theorem generateRecommendations_high_ratio_rule :
    (∀ departments : List Department,
      generateRecommendations departments =
        departments.flatMap (fun dept =>
          (if JsNum.gtb (optNum dept.studentFacultyRatio) (JsNum.num 30)
           then [highRatioMsg dept] else []) ++
          (if JsNum.ltb (optNum dept.budgetPerStudent)
              (JsNum.mul (avgBudgetPerStudent departments) (JsNum.num (mkRat 4 5)))
           then [lowBudgetMsg dept] else []))) ∧
    (∀ q : ℚ, JsNum.gtb (JsNum.num q) (JsNum.num 30) = true ↔ 30 < q) ∧
    generateRecommendations
        (analyzeDepartmentData
          [⟨"Mathematics", JsNum.num 300, JsNum.num 10, JsNum.num 1500000, none, none⟩]) =
      [] ∧
    generateRecommendations
        (analyzeDepartmentData
          [⟨"Crowded", JsNum.num 301, JsNum.num 10, JsNum.num 1000, none, none⟩]) =
      ["🚨 High student-faculty ratio in Crowded (30.1:1). Consider hiring more faculty."] := by
  refine ⟨fun departments => generateRecommendations_eq_flatMap departments,
    fun q => ?_, by decide, by decide⟩
  simpa [JsNum.gtb, JsNum.ltb] using ratLtb_iff 30 q

/-- Claim C4: the low-budget warning is emitted for a record exactly
when its `budgetPerStudent` is strictly below `0.8` (= 4/5) times the
dataset-wide average of `Budget / Students` (the comparison `ltb` holds
iff `<` on the rationals, and `avgBudgetPerStudent` is the arithmetic
mean of the quotients); on a 3-record set with budget-per-student
values 100, 100, 10 only the third record (10 < 0.8 · 70 = 56) gets
the message, which names the department and shows the value at two
decimal places. -/
theorem generateRecommendations_low_budget_rule :
    (∀ departments : List Department,
      generateRecommendations departments =
        departments.flatMap (fun dept =>
          (if JsNum.gtb (optNum dept.studentFacultyRatio) (JsNum.num 30)
           then [highRatioMsg dept] else []) ++
          (if JsNum.ltb (optNum dept.budgetPerStudent)
              (JsNum.mul (avgBudgetPerStudent departments) (JsNum.num (mkRat 4 5)))
           then [lowBudgetMsg dept] else []))) ∧
    (∀ a b : ℚ, JsNum.ltb (JsNum.num a) (JsNum.num b) = true ↔ a < b) ∧
    (∀ a b : ℚ, JsNum.mul (JsNum.num a) (JsNum.num b) = JsNum.num (a * b)) ∧
    (∀ (l : List Department) (bps : Department → ℚ),
      (∀ d ∈ l, JsNum.div d.Budget d.Students = JsNum.num (bps d)) → l ≠ [] →
      avgBudgetPerStudent l = JsNum.num ((l.map bps).sum / (l.length : ℚ))) ∧
    generateRecommendations
        (analyzeDepartmentData
          [⟨"Alpha", JsNum.num 1, JsNum.num 1, JsNum.num 100, none, none⟩,
           ⟨"Beta", JsNum.num 1, JsNum.num 1, JsNum.num 100, none, none⟩,
           ⟨"Gamma", JsNum.num 1, JsNum.num 1, JsNum.num 10, none, none⟩]) =
      ["💰 Low budget per student in Gamma ($10.00). Consider budget increase."] := by
  refine ⟨fun departments => generateRecommendations_eq_flatMap departments,
    fun a b => ratLtb_iff a b, fun a b => by simp [JsNum.mul, ratMul_eq],
    fun l bps h hne => avgBudgetPerStudent_eq_mean l bps h hne, by decide⟩

/-- Claim C4 witness: the mean characterisation applied to the
3-record synthetic set after derivation. -/
theorem generateRecommendations_low_budget_rule_witness :
    (∀ d ∈ analyzeDepartmentData
        [⟨"Alpha", JsNum.num 1, JsNum.num 1, JsNum.num 100, none, none⟩,
         ⟨"Beta", JsNum.num 1, JsNum.num 1, JsNum.num 100, none, none⟩,
         ⟨"Gamma", JsNum.num 1, JsNum.num 1, JsNum.num 10, none, none⟩],
      JsNum.div d.Budget d.Students =
        JsNum.num (if d.Department = "Gamma" then (10 : ℚ) else 100)) ∧
    avgBudgetPerStudent
        (analyzeDepartmentData
          [⟨"Alpha", JsNum.num 1, JsNum.num 1, JsNum.num 100, none, none⟩,
           ⟨"Beta", JsNum.num 1, JsNum.num 1, JsNum.num 100, none, none⟩,
           ⟨"Gamma", JsNum.num 1, JsNum.num 1, JsNum.num 10, none, none⟩]) =
      JsNum.num
        (((analyzeDepartmentData
            [⟨"Alpha", JsNum.num 1, JsNum.num 1, JsNum.num 100, none, none⟩,
             ⟨"Beta", JsNum.num 1, JsNum.num 1, JsNum.num 100, none, none⟩,
             ⟨"Gamma", JsNum.num 1, JsNum.num 1, JsNum.num 10, none, none⟩]).map
          (fun d => if d.Department = "Gamma" then (10 : ℚ) else 100)).sum /
          ((analyzeDepartmentData
            [⟨"Alpha", JsNum.num 1, JsNum.num 1, JsNum.num 100, none, none⟩,
             ⟨"Beta", JsNum.num 1, JsNum.num 1, JsNum.num 100, none, none⟩,
             ⟨"Gamma", JsNum.num 1, JsNum.num 1, JsNum.num 10, none, none⟩]).length : ℚ)) :=
  ⟨by decide,
   generateRecommendations_low_budget_rule.2.2.2.1 _
     (fun d => if d.Department = "Gamma" then (10 : ℚ) else 100)
     (by decide) (by decide)⟩

/-- Claim C5: recommendations appear in input department order; both
rules may fire for one record, the high-ratio message immediately
preceding the low-budget message; nothing is suppressed or
deduplicated (the output is exactly the concatenation of every
record's messages). -/
theorem generateRecommendations_ordering :
    (∀ departments : List Department,
      generateRecommendations departments =
        departments.flatMap (recsForDept departments)) ∧
    (∀ (departments : List Department) (dept : Department),
      recsForDept departments dept =
        (if JsNum.gtb (optNum dept.studentFacultyRatio) (JsNum.num 30)
         then [highRatioMsg dept] else []) ++
        (if JsNum.ltb (optNum dept.budgetPerStudent)
            (JsNum.mul (avgBudgetPerStudent departments) (JsNum.num (mkRat 4 5)))
         then [lowBudgetMsg dept] else [])) ∧
    generateRecommendations
        (analyzeDepartmentData
          [⟨"Packed", JsNum.num 310, JsNum.num 10, JsNum.num 10, none, none⟩,
           ⟨"Rich", JsNum.num 1, JsNum.num 1, JsNum.num 1000, none, none⟩]) =
      ["🚨 High student-faculty ratio in Packed (31.0:1). Consider hiring more faculty.",
       "💰 Low budget per student in Packed ($0.03). Consider budget increase."] :=
  ⟨fun departments => generateRecommendations_eq_flatMap departments,
   fun _ _ => rfl, by decide⟩

/-- Claim C6: the empty input yields the empty recommendation list,
and the dataset-wide average expression, were it evaluated on the
empty set, is the defined value `NaN` (JavaScript `0 / 0`), not an
error. -/
theorem generateRecommendations_empty :
    generateRecommendations [] = ([] : List String) ∧
    avgBudgetPerStudent [] = JsNum.nan :=
  ⟨rfl, by decide⟩

/-- Claim C7: derivation is total on zero denominators: a record with
`facultyCount = 0` (resp. `studentCount = 0`) is not rejected — it is
mapped to an output record whose ratio (resp. budget-per-student)
field is the platform's non-finite division result. -/
theorem analyzeDepartmentData_zero_denominators (d : Department) (ds : List Department) :
    (analyzeDepartmentData ds).length = ds.length ∧
    analyzeDepartmentData [d] =
      [{ d with studentFacultyRatio := some (JsNum.div d.Students d.Faculty),
                budgetPerStudent := some (JsNum.div d.Budget d.Students) }] ∧
    (d.Faculty = JsNum.num 0 →
      JsNum.isFinite (JsNum.div d.Students d.Faculty) = false) ∧
    (d.Students = JsNum.num 0 →
      JsNum.isFinite (JsNum.div d.Budget d.Students) = false) := by
  refine ⟨by simp [analyzeDepartmentData], rfl, ?_, ?_⟩
  · intro h; rw [h]; exact div_zero_not_finite d.Students
  · intro h; rw [h]; exact div_zero_not_finite d.Budget

/-- Claim C7 witness: a record with zero students and zero faculty
derives `NaN` (0/0) and `Infinity` (500000/0), both non-finite. -/
theorem analyzeDepartmentData_zero_denominators_witness :
    JsNum.isFinite (JsNum.div (JsNum.num 0) (JsNum.num 0)) = false ∧
    JsNum.isFinite (JsNum.div (JsNum.num 500000) (JsNum.num 0)) = false :=
  ⟨(analyzeDepartmentData_zero_denominators
      ⟨"Empty", JsNum.num 0, JsNum.num 0, JsNum.num 500000, none, none⟩ []).2.2.1 rfl,
   (analyzeDepartmentData_zero_denominators
      ⟨"Empty", JsNum.num 0, JsNum.num 0, JsNum.num 500000, none, none⟩ []).2.2.2 rfl⟩

/-- Claim C8 counterexample: a non-2xx (status 500) response whose JSON
body does carry `choices[0].message.content` yields that content, not
the fallback string — the source never consults the response status, so
"non-2xx response status" is not by itself a failure outcome. -/
theorem getAiInsights_non2xx_counterexample :
    getAiInsights (.response 500 (.json (.jobj [("choices",
        .jarr [.jobj [("message",
          .jobj [("content", .jstr "All metrics look healthy.")])]])]))) =
      JsVal.jstr "All metrics look healthy." ∧
    "All metrics look healthy." ≠ fallbackMsg :=
  ⟨rfl, by decide⟩

/-- Claim C8 (amended): `getAiInsights` is total (never raises past its
boundary); it yields exactly the fixed fallback string on a network
error, a non-JSON body, or whenever extracting
`choices[0].message.content` from the parsed body throws — regardless
of HTTP status — and whenever the extraction succeeds it yields the
first choice's content unmodified, again regardless of status. -/
theorem getAiInsights_fallback_amended :
    getAiInsights .networkError = JsVal.jstr fallbackMsg ∧
    (∀ status : Nat,
      getAiInsights (.response status .notJson) = JsVal.jstr fallbackMsg) ∧
    (∀ (status : Nat) (v : JsVal), extractContent v = .error () →
      getAiInsights (.response status (.json v)) = JsVal.jstr fallbackMsg) ∧
    (∀ (status : Nat) (v c : JsVal), extractContent v = .ok c →
      getAiInsights (.response status (.json v)) = c) ∧
    (∀ (status : Nat) (s : String) (rest : List JsVal),
      getAiInsights (.response status (.json (.jobj [("choices",
        .jarr (.jobj [("message", .jobj [("content", .jstr s)])] :: rest))]))) =
      JsVal.jstr s) := by
  refine ⟨rfl, fun _ => rfl, ?_, ?_, fun _ _ _ => rfl⟩
  · intro status v h
    show (match extractContent v with
          | Except.error _ => JsVal.jstr fallbackMsg
          | Except.ok c => c) = JsVal.jstr fallbackMsg
    rw [h]
  · intro status v c h
    show (match extractContent v with
          | Except.error _ => JsVal.jstr fallbackMsg
          | Except.ok c => c) = c
    rw [h]

/-- Claim C8 witness: a typical API error body (no `choices`) maps to
the fallback string at status 401, and a well-formed body yields its
content at status 200. -/
theorem getAiInsights_fallback_amended_witness :
    extractContent (.jobj [("error", .jstr "Invalid API key")]) =
      (.error () : Except Unit JsVal) ∧
    getAiInsights (.response 401 (.json (.jobj [("error", .jstr "Invalid API key")]))) =
      JsVal.jstr fallbackMsg ∧
    extractContent (.jobj [("choices", .jarr [.jobj [("message",
        .jobj [("content", .jstr "Hire more faculty.")])]])]) =
      (.ok (.jstr "Hire more faculty.") : Except Unit JsVal) ∧
    getAiInsights (.response 200 (.json (.jobj [("choices", .jarr [.jobj [("message",
        .jobj [("content", .jstr "Hire more faculty.")])]])]))) =
      JsVal.jstr "Hire more faculty." :=
  ⟨rfl,
   getAiInsights_fallback_amended.2.2.1 401
     (.jobj [("error", .jstr "Invalid API key")]) rfl,
   rfl,
   getAiInsights_fallback_amended.2.2.2.1 200
     (.jobj [("choices", .jarr [.jobj [("message",
       .jobj [("content", .jstr "Hire more faculty.")])]])])
     (.jstr "Hire more faculty.") rfl⟩

/-- Claim C9: the naive Recommendation Engine, which recomputes the
dataset-wide average once per record, produces output identical to the
variant that hoists the average computation once per call. -/
theorem generateRecommendations_hoisted_equiv :
    ∀ departments : List Department,
      generateRecommendations departments =
        generateRecommendationsHoisted departments :=
  fun _ => rfl

/-- Claim C10: derivation is idempotent — applied to its own output it
returns the same sequence, since the derived fields are recomputed
solely from the unchanged base fields and overwrite the existing
derived fields. -/
theorem analyzeDepartmentData_idempotent (ds : List Department) :
    analyzeDepartmentData (analyzeDepartmentData ds) = analyzeDepartmentData ds := by
  simp only [analyzeDepartmentData, List.map_map]
  rfl
